import Mathlib

/-!
# Dynamic-library loader templates of capsule

Shallow embedding of

* `templates/lua/embedded/contract/example.c` (namespace `LuaEmbedded`), and
* `templates/c/bin/contract/example.c` (namespace `CBin`).

The C functions call into libraries that live outside the repository
(`ckb_syscalls.h`, `ckb_dlfcn.h`, `blockchain.h`) and into code that is only
known once it has been loaded.  Their answers are fields of a `World`; every
call the program makes is appended to a trace of `Event`s, so that "is never
invoked" and "is invoked exactly once" are statements about that trace.

C integers are `Nat` and `Int`.  No arithmetic of the two programs can leave
its C type: the only operations are comparisons with constants, the sum
`2 + 32 + 1`, one `%`, and `mem + mem_size` inside the array `mem`; the
assignment `script_seg.size = len` happens only when `len ≤ 32768`.  The one
narrowing conversion is the `int` handed to `ckb_exit`, whose parameter is an
`int8_t`; it is `to_int8_t`.
-/

namespace Capsule

/-- A C pointer value: `NULL`, or the address of an object. -/
inductive Ptr where
  | null : Ptr
  | obj (addr : Nat) : Ptr
deriving DecidableEq, Repr

/-- The `mol_seg_t` view: `ptr` is counted from the first byte of the local
`script` array, `size` is the number of bytes of the view. -/
structure mol_seg_t where
  ptr : Nat
  size : Nat
deriving DecidableEq, Repr

/-- What one call of `ckb_dlopen2` leaves behind: its return value, the value
stored in `*handle` and the value stored in `consumed_size`. -/
structure DlOpen where
  err : Int
  handle : Ptr
  consumed_size : Nat
deriving DecidableEq, Repr

/-- Everything the code under study does not define itself. -/
structure World where
  /-- `RISCV_PGSIZE` of `ckb_dlfcn.h`. -/
  RISCV_PGSIZE : Nat
  /-- `MOL_OK` of the molecule reader. -/
  MOL_OK : Nat
  /-- `CKB_SUCCESS` of `ckb_consts.h`. -/
  CKB_SUCCESS : Int
  /-- `ckb_load_script(script, &len, 0)`: the return value. -/
  load_script_ret : Int
  /-- `ckb_load_script(script, &len, 0)`: the value of `len` afterwards. -/
  load_script_len : Nat
  /-- The bytes of the local `script` array after `ckb_load_script`. -/
  script : Nat → Nat
  /-- `MolReader_Script_verify(&seg, compatible)`. -/
  MolReader_Script_verify : mol_seg_t → Bool → Nat
  /-- `MolReader_Script_get_args(&seg)`. -/
  MolReader_Script_get_args : mol_seg_t → mol_seg_t
  /-- `MolReader_Bytes_raw_bytes(&seg)`. -/
  MolReader_Bytes_raw_bytes : mol_seg_t → mol_seg_t
  /-- `ckb_dlopen2(dep_cell_hash, hash_type, aligned_addr, aligned_size,
  handle, consumed_size)`, as a function of the 32 bytes found at
  `dep_cell_hash`, of `hash_type` and of `aligned_size`. -/
  ckb_dlopen2 : List Nat → Nat → Nat → DlOpen
  /-- `ckb_dlsym(handle, symbol)`. -/
  ckb_dlsym : Ptr → String → Ptr
  /-- A call through a `CreateLuaInstanceFuncType` pointer `f`:
  `f(min, max)`; the last argument is the content of the memory between
  `min` and `max` at the time of the call. -/
  call_create : Ptr → Nat → Nat → (Nat → Nat) → Ptr
  /-- A call through an `EvaluateLuaCodeFuncType` pointer `f`:
  `f(l, code, code_size, name)`. -/
  call_evaluate : Ptr → Ptr → String → Nat → String → Int
  /-- Address of the local `handle` of `main`. -/
  addr_handle : Nat
  /-- Content of the local `handle` of `main` before anything is stored. -/
  uninit_handle : Ptr
  /-- Address of the local array `mem` of `run_lua_test_code`. -/
  addr_mem : Nat
  /-- Content of the local array `mem` of `run_lua_test_code` at its
  declaration (it has no initialiser): byte `i` is `uninit_mem i`. -/
  uninit_mem : Nat → Nat

/-- One observable action of the program. -/
inductive Event where
  | ckb_load_script (len : Nat)
  | printf (fmt : String)
  | MolReader_Script_verify (seg : mol_seg_t)
  | MolReader_Script_get_args (seg : mol_seg_t)
  | MolReader_Bytes_raw_bytes (seg : mol_seg_t)
  /-- A read of the byte at `args_bytes_seg.ptr + off`. -/
  | read_arg (off : Nat)
  /-- The bytes `off .. off + 31` of the arguments are handed to the loader
  as `dep_cell_hash`, with `hash_type` and the size of `code_buff`. -/
  | ckb_dlopen2 (off : Nat) (code_hash : List Nat) (hash_type : Nat) (size : Nat)
  | ckb_dlsym (handle : Ptr) (name : String)
  | create (f : Ptr) (min max : Nat) (arena : Nat → Nat)
  | evaluate (f : Ptr) (l : Ptr) (code : String) (code_size : Nat) (name : String)
  | close (f : Ptr) (l : Ptr)
  | ckb_exit (code : Int)

/-- A computation: the events so far and either a value or, after
`ckb_exit`, the exit status (nothing after `ckb_exit` is executed). -/
structure Step (α : Type) where
  trace : List Event
  result : Except Int α

namespace Step

/-- Sequencing: the second part runs only if the first one did not exit. -/
def bind {α β : Type} (m : Step α) (f : α → Step β) : Step β :=
  match m.result with
  | .error c => ⟨m.trace, .error c⟩
  | .ok a => ⟨m.trace ++ (f a).trace, (f a).result⟩

instance : Monad Step where
  pure a := ⟨[], .ok a⟩
  bind := Step.bind

/-- Record one event. -/
def emit (e : Event) : Step Unit := ⟨[e], .ok ()⟩

/-- The code the process ends with when the computation is `main`. -/
def exit_code (m : Step Int) : Int :=
  match m.result with
  | .ok v => v
  | .error c => c

end Step

/-- Conversion of an `int` to `int8_t`: the value in -128 .. 127 that
differs from `x` by a multiple of 256. -/
def to_int8_t (x : Int) : Int := Int.bmod x 256

/-- `int ckb_exit(int8_t code)` of `ckb_syscalls.h`: the process ends here.
The event keeps the `int` the caller wrote as argument; the parameter is an
`int8_t`, so the status the process ends with is that value converted to 8
bits. -/
def ckb_exit {α : Type} (code : Int) : Step α :=
  ⟨[Event.ckb_exit code], .error (to_int8_t code)⟩

/-- `printf(fmt, ...)`. -/
def printf (fmt : String) : Step Unit := Step.emit (Event.printf fmt)

namespace LuaEmbedded

def MAX_CODE_SIZE : Nat := 1024 * 1024
def MAX_SCRIPT_SIZE : Nat := 32 * 1024

def RESERVED_ARGS_SIZE : Nat := 2
def BLAKE2B_BLOCK_SIZE : Nat := 32
def HASH_TYPE_SIZE : Nat := 1

def ERROR_ENCODING : Int := -2
def ERROR_SCRIPT_TOO_LONG : Int := -21
def ERROR_CANT_LOAD_LIB : Int := 40
def ERROR_LIB_MALFORMED : Int := ERROR_CANT_LOAD_LIB + 1
def ERROR_CANT_FIND_SYMBOL : Int := ERROR_LIB_MALFORMED + 1
def ERROR_INVALID_ARGS_FORMAT : Int := ERROR_CANT_FIND_SYMBOL + 1

/-- The bytes `off .. off + n - 1` of the arguments `seg`. -/
def arg_bytes (w : World) (seg : mol_seg_t) (off n : Nat) : List Nat :=
  (List.range n).map (fun i => w.script (seg.ptr + off + i))

/-- `int get_dylib_handle(void** handle)`.  `handle` is the pointer the
caller passes, `cell` the content of `*handle` at entry; the value is the
returned `int` with the content of `*handle` at exit. -/
def get_dylib_handle (w : World) (handle : Ptr) (cell : Ptr) : Step (Int × Ptr) := do
  let len := MAX_SCRIPT_SIZE
  Step.emit (Event.ckb_load_script len)
  let err := w.load_script_ret
  let len := w.load_script_len
  if err ≠ 0 then
    printf "loading script error %d\n"
    return (err, cell)
  if len > MAX_SCRIPT_SIZE then
    return (ERROR_SCRIPT_TOO_LONG, cell)
  let script_seg : mol_seg_t := ⟨0, len⟩
  Step.emit (Event.MolReader_Script_verify script_seg)
  if w.MolReader_Script_verify script_seg false ≠ w.MOL_OK then
    printf "verifying script failed\n"
    return (ERROR_ENCODING, cell)
  Step.emit (Event.MolReader_Script_get_args script_seg)
  let args_seg := w.MolReader_Script_get_args script_seg
  Step.emit (Event.MolReader_Bytes_raw_bytes args_seg)
  let args_bytes_seg := w.MolReader_Bytes_raw_bytes args_seg
  if args_bytes_seg.size < RESERVED_ARGS_SIZE + BLAKE2B_BLOCK_SIZE + HASH_TYPE_SIZE then
    return (ERROR_INVALID_ARGS_FORMAT, cell)
  let code_hash := RESERVED_ARGS_SIZE
  Step.emit (Event.read_arg (RESERVED_ARGS_SIZE + BLAKE2B_BLOCK_SIZE))
  let hash_type := w.script (args_bytes_seg.ptr + (RESERVED_ARGS_SIZE + BLAKE2B_BLOCK_SIZE))
  let code_buff_size := MAX_CODE_SIZE
  Step.emit (Event.ckb_dlopen2 code_hash (arg_bytes w args_bytes_seg code_hash BLAKE2B_BLOCK_SIZE)
    hash_type code_buff_size)
  let r := w.ckb_dlopen2 (arg_bytes w args_bytes_seg code_hash BLAKE2B_BLOCK_SIZE)
    hash_type code_buff_size
  let err := r.err
  let cell := r.handle
  let consumed_size := r.consumed_size
  if err ≠ 0 then
    printf "dl_opening error: %d\n"
    return (err, cell)
  if handle = Ptr.null then
    printf "dl_opening error, can not load library\n"
    return (ERROR_CANT_LOAD_LIB, cell)
  if consumed_size % w.RISCV_PGSIZE ≠ 0 then
    printf "dl_opening error, library malformed\n"
    return (ERROR_LIB_MALFORMED, cell)
  return (0, cell)

/-- `void must_get_dylib_handle(void** handle)`; the value is the content
of `*handle` at exit. -/
def must_get_dylib_handle (w : World) (handle : Ptr) (cell : Ptr) : Step Ptr := do
  let (err, cell) ← get_dylib_handle w handle cell
  if err ≠ 0 then
    ckb_exit err
  return cell

/-- `void* must_load_function(void* handle, char* name)`. -/
def must_load_function (w : World) (handle : Ptr) (name : String) : Step Ptr := do
  Step.emit (Event.ckb_dlsym handle name)
  let func := w.ckb_dlsym handle name
  if func = Ptr.null then
    printf "dl_opening error, can't find symbol %s\n"
    ckb_exit ERROR_CANT_FIND_SYMBOL
  return func

/-- `void run_lua_test_code(void* handle, const char* code, size_t code_size)`. -/
def run_lua_test_code (w : World) (handle : Ptr) (code : String) (code_size : Nat) :
    Step Unit := do
  let create_func ← must_load_function w handle "lua_create_instance"
  let evaluate_func ← must_load_function w handle "lua_run_code"
  let close_func ← must_load_function w handle "lua_close_instance"
  let mem_size := 1024 * 512
  let mem := w.uninit_mem
  Step.emit (Event.create create_func w.addr_mem (w.addr_mem + mem_size) mem)
  let l := w.call_create create_func w.addr_mem (w.addr_mem + mem_size) mem
  if l = Ptr.null then
    printf "creating lua instance failed\n"
    return
  Step.emit (Event.evaluate evaluate_func l code code_size "test")
  let ret := w.call_evaluate evaluate_func l code code_size "test"
  if ret ≠ 0 then
    printf "evaluating lua code failed: %d\n"
    return
  Step.emit (Event.close close_func l)

/-- `strlen`: the number of bytes before the terminating zero. -/
def strlen (s : String) : Nat := s.utf8ByteSize

/-- The string literal of `main`. -/
def code : String :=
  "_code_hash, _hash_type, args, err = ckb.load_and_unpack_script(); print(err); if err == nil then ckb.dump(args) end"

/-- `int main(int argc, char* argv[])`.  Control reaches the closing brace
of `main` without a `return`, which ends the program with the value 0. -/
def main (w : World) : Step Int := do
  let handle ← must_get_dylib_handle w (Ptr.obj w.addr_handle) w.uninit_handle
  let code_size := strlen code
  run_lua_test_code w handle code code_size
  return 0

end LuaEmbedded

namespace CBin

def BLAKE2B_BLOCK_SIZE : Nat := 32
def SCRIPT_SIZE : Nat := 32768

def ERROR_ARGUMENTS_LEN : Int := -1
def ERROR_ENCODING : Int := -2
def ERROR_SYSCALL : Int := -3
def ERROR_SCRIPT_TOO_LONG : Int := -21

/-- `int main()` of `templates/c/bin/contract/example.c`. -/
def main (w : World) : Step Int := do
  let len := SCRIPT_SIZE
  Step.emit (Event.ckb_load_script len)
  let ret := w.load_script_ret
  let len := w.load_script_len
  if ret ≠ w.CKB_SUCCESS then
    return ERROR_SYSCALL
  if len > SCRIPT_SIZE then
    return ERROR_SCRIPT_TOO_LONG
  let script_seg : mol_seg_t := ⟨0, len⟩
  Step.emit (Event.MolReader_Script_verify script_seg)
  if w.MolReader_Script_verify script_seg false ≠ w.MOL_OK then
    return ERROR_ENCODING
  Step.emit (Event.MolReader_Script_get_args script_seg)
  let args_seg := w.MolReader_Script_get_args script_seg
  Step.emit (Event.MolReader_Bytes_raw_bytes args_seg)
  let _args_bytes_seg := w.MolReader_Bytes_raw_bytes args_seg
  printf "args length: %ld"
  return w.CKB_SUCCESS

end CBin

/-! ## Reading a trace -/

/-- The event is a call of `MolReader_Script_verify`. -/
def Event.is_verify : Event → Bool
  | .MolReader_Script_verify _ => true
  | _ => false

/-- The event reads argument bytes: a dereference in `get_dylib_handle`, or
the loader being handed the pointer to the code hash. -/
def Event.reads_arg : Event → Bool
  | .read_arg _ => true
  | .ckb_dlopen2 _ _ _ _ => true
  | _ => false

/-- The event is a call of `ckb_dlopen2`. -/
def Event.is_dlopen2 : Event → Bool
  | .ckb_dlopen2 _ _ _ _ => true
  | _ => false

/-- The event is a call of `ckb_dlsym`. -/
def Event.is_dlsym : Event → Bool
  | .ckb_dlsym _ _ => true
  | _ => false

/-- The event is a call of the construct entry point. -/
def Event.is_create : Event → Bool
  | .create _ _ _ _ => true
  | _ => false

/-- The event is a call of the evaluate entry point. -/
def Event.is_evaluate : Event → Bool
  | .evaluate _ _ _ _ _ => true
  | _ => false

/-- The event is a call of the teardown entry point. -/
def Event.is_close : Event → Bool
  | .close _ _ => true
  | _ => false

/-- The event is a call of one of the three entry points of the loaded
code. -/
def Event.is_entry (e : Event) : Bool :=
  e.is_create || e.is_evaluate || e.is_close

/-- The calls of the entry points, in the order they were made. -/
def entry_calls (t : List Event) : List Event := t.filter Event.is_entry

/-- What each call of `ckb_dlopen2` in the trace was given: the offset of the
code hash in the arguments, its 32 bytes, the hash type and the capacity. -/
def loader_calls : List Event → List (Nat × List Nat × Nat × Nat)
  | [] => []
  | .ckb_dlopen2 off h ty cap :: t => (off, h, ty, cap) :: loader_calls t
  | _ :: t => loader_calls t

/-- What each call of the construct entry point was given: the two bounds
and the content of the memory between them. -/
def create_calls : List Event → List (Nat × Nat × (Nat → Nat))
  | [] => []
  | .create _ lo hi arena :: t => (lo, hi, arena) :: create_calls t
  | _ :: t => create_calls t

namespace LuaEmbedded

/-- The raw argument bytes `get_dylib_handle` works on. -/
def args_bytes_seg (w : World) : mol_seg_t :=
  w.MolReader_Bytes_raw_bytes (w.MolReader_Script_get_args ⟨0, w.load_script_len⟩)

/-- Byte `i` of the raw arguments. -/
def arg_byte (w : World) (i : Nat) : Nat := w.script ((args_bytes_seg w).ptr + i)

/-- The script loads, is not longer than `MAX_SCRIPT_SIZE` and passes
`MolReader_Script_verify`. -/
def script_ok (w : World) : Prop :=
  w.load_script_ret = 0 ∧ w.load_script_len ≤ MAX_SCRIPT_SIZE ∧
    w.MolReader_Script_verify ⟨0, w.load_script_len⟩ false = w.MOL_OK

instance (w : World) : Decidable (script_ok w) := by
  unfold script_ok; infer_instance

/-- The answer of the loader to the call `get_dylib_handle` makes. -/
def loader_answer (w : World) : DlOpen :=
  w.ckb_dlopen2 ((List.range 32).map (fun i => arg_byte w (2 + i))) (arg_byte w 34) 1048576

/-- The events of `get_dylib_handle` up to and including the call of the
loader, when the script is accepted and has at least 35 argument bytes. -/
def trace_to_loader (w : World) : List Event :=
  [Event.ckb_load_script MAX_SCRIPT_SIZE,
   Event.MolReader_Script_verify ⟨0, w.load_script_len⟩,
   Event.MolReader_Script_get_args ⟨0, w.load_script_len⟩,
   Event.MolReader_Bytes_raw_bytes (w.MolReader_Script_get_args ⟨0, w.load_script_len⟩),
   Event.read_arg 34,
   Event.ckb_dlopen2 2 ((List.range 32).map (fun i => arg_byte w (2 + i))) (arg_byte w 34) 1048576]

/-- The events of `run_lua_test_code` from the call of the construct entry
point on, once the three functions `f1`, `f2`, `f3` have been found. -/
def trace_from_create (w : World) (f1 f2 f3 : Ptr) (code : String) (code_size : Nat) :
    List Event :=
  Event.create f1 w.addr_mem (w.addr_mem + 524288) w.uninit_mem ::
    (if w.call_create f1 w.addr_mem (w.addr_mem + 524288) w.uninit_mem = Ptr.null then
      [Event.printf "creating lua instance failed\n"]
    else
      Event.evaluate f2 (w.call_create f1 w.addr_mem (w.addr_mem + 524288) w.uninit_mem)
          code code_size "test" ::
        (if w.call_evaluate f2 (w.call_create f1 w.addr_mem (w.addr_mem + 524288) w.uninit_mem)
            code code_size "test" ≠ 0 then
          [Event.printf "evaluating lua code failed: %d\n"]
        else
          [Event.close f3 (w.call_create f1 w.addr_mem (w.addr_mem + 524288) w.uninit_mem)]))

end LuaEmbedded

/-! ## Sample worlds -/

/-- A world in which every step succeeds: a 100-byte script whose arguments
are the 43 bytes from offset 57 on, a loader that knows one code hash and
answers it with a handle and one page, and loaded code whose three entry
points are found and succeed. -/
def World.sample : World where
  RISCV_PGSIZE := 4096
  MOL_OK := 0
  CKB_SUCCESS := 0
  load_script_ret := 0
  load_script_len := 100
  script := fun i => if i = 91 then 1 else i % 256
  MolReader_Script_verify := fun _ _ => 0
  MolReader_Script_get_args := fun s => ⟨s.ptr + 53, s.size - 53⟩
  MolReader_Bytes_raw_bytes := fun s => ⟨s.ptr + 4, s.size - 4⟩
  ckb_dlopen2 := fun hash ty _ =>
    if hash = (List.range 32).map (fun i => 59 + i) ∧ ty = 1 then ⟨0, Ptr.obj 7000, 4096⟩
    else ⟨1, Ptr.null, 0⟩
  ckb_dlsym := fun _ name =>
    if name = "lua_create_instance" then Ptr.obj 7100
    else if name = "lua_run_code" then Ptr.obj 7200
    else if name = "lua_close_instance" then Ptr.obj 7300
    else Ptr.null
  call_create := fun _ lo _ _ => Ptr.obj (lo + 16)
  call_evaluate := fun _ _ _ _ _ => 0
  addr_handle := 4000000
  uninit_handle := Ptr.null
  addr_mem := 3000000
  uninit_mem := fun _ => 0

/-- The sample world with a loader that reports success and leaves `NULL`
in `*handle`. -/
def World.null_library : World :=
  { World.sample with ckb_dlopen2 := fun _ _ _ => ⟨0, Ptr.null, 4096⟩ }

/-- The sample world with a loader that loads 4100 bytes. -/
def World.odd_size : World :=
  { World.sample with ckb_dlopen2 := fun _ _ _ => ⟨0, Ptr.obj 7000, 4100⟩ }

/-- The sample world with an 87-byte script: 30 argument bytes. -/
def World.short_args : World :=
  { World.sample with load_script_len := 87 }

/-- The sample world with the lowest bit of the first byte of the code hash
flipped. -/
def World.bad_hash : World :=
  { World.sample with script := fun i => if i = 59 then 58 else World.sample.script i }

/-- The sample world with a loader that fails with the error 256. -/
def World.loader_256 : World :=
  { World.sample with ckb_dlopen2 := fun _ _ _ => ⟨256, Ptr.null, 0⟩ }

/-- The sample world with loaded code that has no `lua_run_code`. -/
def World.no_run_code : World :=
  { World.sample with ckb_dlsym := fun _ name =>
      if name = "lua_create_instance" then Ptr.obj 7100
      else if name = "lua_close_instance" then Ptr.obj 7300
      else Ptr.null }

/-- The sample world with a construct entry point that returns `NULL`. -/
def World.create_fails : World :=
  { World.sample with call_create := fun _ _ _ _ => Ptr.null }

/-- The sample world with an evaluate entry point that returns 1. -/
def World.evaluate_fails : World :=
  { World.sample with call_evaluate := fun _ _ _ _ _ => 1 }

/-- The sample world with a script of 40000 bytes. -/
def World.long_script : World :=
  { World.sample with load_script_len := 40000 }

/-- The sample world with other reserved bytes and other bytes after the
hash type. -/
def World.other_padding : World :=
  { World.sample with script := fun i => if 59 ≤ i ∧ i ≤ 91 then World.sample.script i else 255 }

/-- The sample world with a stack that holds the byte 170 everywhere. -/
def World.dirty_stack : World :=
  { World.sample with uninit_mem := fun _ => 170 }

/-! ## Conversion to `int8_t` -/

theorem to_int8_t_of_range (x : Int) (hlo : -128 ≤ x) (hhi : x ≤ 127) : to_int8_t x = x := by
  simp only [to_int8_t, Int.bmod, Nat.cast_ofNat]
  split_ifs <;> omega

theorem to_int8_t_eq_zero_iff (x : Int) : to_int8_t x = 0 ↔ (256 : Int) ∣ x := by
  simp only [to_int8_t, Int.bmod, Nat.cast_ofNat]
  split_ifs <;> omega

/-! ## Laws of sequencing -/

theorem Step.emit_bind {β : Type} (e : Event) (f : Unit → Step β) :
    (Step.emit e >>= f) = ⟨e :: (f ()).trace, (f ()).result⟩ := rfl

theorem Step.printf_bind {β : Type} (s : String) (f : Unit → Step β) :
    (printf s >>= f) = ⟨Event.printf s :: (f ()).trace, (f ()).result⟩ := rfl

theorem Step.pure_bind {α β : Type} (a : α) (f : α → Step β) :
    ((pure a : Step α) >>= f) = f a := by
  cases h : f a; simp [Bind.bind, Step.bind, pure, h]

theorem Step.exit_bind {α β : Type} (c : Int) (f : α → Step β) :
    ((ckb_exit c : Step α) >>= f) = ckb_exit c := rfl

theorem Step.pure_trace {α : Type} (a : α) : (pure a : Step α).trace = [] := rfl

theorem Step.pure_result {α : Type} (a : α) : (pure a : Step α).result = .ok a := rfl

theorem Step.mk_bind_ok {α β : Type} (t : List Event) (a : α) (f : α → Step β) :
    ((⟨t, .ok a⟩ : Step α) >>= f) = ⟨t ++ (f a).trace, (f a).result⟩ := rfl

theorem Step.mk_bind_error {α β : Type} (t : List Event) (c : Int) (f : α → Step β) :
    ((⟨t, .error c⟩ : Step α) >>= f) = ⟨t, .error c⟩ := rfl

namespace LuaEmbedded

theorem get_dylib_handle_below_minimum (w : World) (handle cell : Ptr) (hok : script_ok w)
    (hshort : (args_bytes_seg w).size < 35) :
    get_dylib_handle w handle cell =
      ⟨[Event.ckb_load_script MAX_SCRIPT_SIZE,
        Event.MolReader_Script_verify ⟨0, w.load_script_len⟩,
        Event.MolReader_Script_get_args ⟨0, w.load_script_len⟩,
        Event.MolReader_Bytes_raw_bytes (w.MolReader_Script_get_args ⟨0, w.load_script_len⟩)],
       .ok (43, cell)⟩ := by
  obtain ⟨h0, h1, h2⟩ := hok
  have h1 : ¬ (w.load_script_len > MAX_SCRIPT_SIZE) := not_lt.mpr h1
  have h3 : (w.MolReader_Bytes_raw_bytes (w.MolReader_Script_get_args ⟨0, w.load_script_len⟩)).size
      < RESERVED_ARGS_SIZE + BLAKE2B_BLOCK_SIZE + HASH_TYPE_SIZE := hshort
  simp only [get_dylib_handle, Step.emit_bind, Step.printf_bind, Step.pure_bind, h0, h1, h2, h3,
    ne_eq, not_true_eq_false, if_false, if_true, Step.pure_trace, Step.pure_result]
  rfl

theorem get_dylib_handle_loaded (w : World) (handle cell : Ptr) (hok : script_ok w)
    (hargs : 35 ≤ (args_bytes_seg w).size) :
    get_dylib_handle w handle cell =
      if (loader_answer w).err ≠ 0 then
        ⟨trace_to_loader w ++ [Event.printf "dl_opening error: %d\n"],
          .ok ((loader_answer w).err, (loader_answer w).handle)⟩
      else if handle = Ptr.null then
        ⟨trace_to_loader w ++ [Event.printf "dl_opening error, can not load library\n"],
          .ok (ERROR_CANT_LOAD_LIB, (loader_answer w).handle)⟩
      else if (loader_answer w).consumed_size % w.RISCV_PGSIZE ≠ 0 then
        ⟨trace_to_loader w ++ [Event.printf "dl_opening error, library malformed\n"],
          .ok (ERROR_LIB_MALFORMED, (loader_answer w).handle)⟩
      else ⟨trace_to_loader w, .ok (0, (loader_answer w).handle)⟩ := by
  obtain ⟨h0, h1, h2⟩ := hok
  have h1 : ¬ (w.load_script_len > MAX_SCRIPT_SIZE) := not_lt.mpr h1
  have h3 : ¬ ((w.MolReader_Bytes_raw_bytes (w.MolReader_Script_get_args ⟨0, w.load_script_len⟩)).size
      < RESERVED_ARGS_SIZE + BLAKE2B_BLOCK_SIZE + HASH_TYPE_SIZE) := not_lt.mpr hargs
  have hh : arg_bytes w (w.MolReader_Bytes_raw_bytes (w.MolReader_Script_get_args ⟨0, w.load_script_len⟩))
      RESERVED_ARGS_SIZE BLAKE2B_BLOCK_SIZE = (List.range 32).map (fun i => arg_byte w (2 + i)) := by
    simp [arg_bytes, arg_byte, args_bytes_seg, RESERVED_ARGS_SIZE, BLAKE2B_BLOCK_SIZE, Nat.add_assoc]
  have ht : w.script ((w.MolReader_Bytes_raw_bytes (w.MolReader_Script_get_args ⟨0, w.load_script_len⟩)).ptr
      + (RESERVED_ARGS_SIZE + BLAKE2B_BLOCK_SIZE)) = arg_byte w 34 := rfl
  have hM : MAX_CODE_SIZE = 1048576 := rfl
  have hR : RESERVED_ARGS_SIZE = 2 := rfl
  have hB : RESERVED_ARGS_SIZE + BLAKE2B_BLOCK_SIZE = 34 := rfl
  simp only [get_dylib_handle, Step.emit_bind, Step.printf_bind, Step.pure_bind, h0, h1, h2, h3,
    ne_eq, not_true_eq_false, if_false, if_true, Step.pure_trace, Step.pure_result, hh, ht]
  simp only [hM, hR, hB]
  unfold loader_answer trace_to_loader
  split_ifs <;> rfl

theorem must_get_dylib_handle_of (w : World) (handle cell : Ptr) (t : List Event) (e : Int)
    (c : Ptr) (h : get_dylib_handle w handle cell = ⟨t, .ok (e, c)⟩) :
    must_get_dylib_handle w handle cell =
      if e ≠ 0 then ⟨t ++ [Event.ckb_exit e], .error (to_int8_t e)⟩ else ⟨t, .ok c⟩ := by
  unfold must_get_dylib_handle
  rw [h]
  split_ifs with he
  · simp only [Step.mk_bind_ok, he, ne_eq, not_false_eq_true, if_true, Step.exit_bind]
    rfl
  · have he0 : e = 0 := not_not.mp he
    subst he0
    simp [Step.mk_bind_ok, Step.pure_bind, Step.pure_trace, Step.pure_result]

theorem must_load_function_eq (w : World) (handle : Ptr) (name : String) :
    must_load_function w handle name =
      if w.ckb_dlsym handle name = Ptr.null then
        ⟨[Event.ckb_dlsym handle name, Event.printf "dl_opening error, can't find symbol %s\n",
          Event.ckb_exit ERROR_CANT_FIND_SYMBOL], .error ERROR_CANT_FIND_SYMBOL⟩
      else ⟨[Event.ckb_dlsym handle name], .ok (w.ckb_dlsym handle name)⟩ := by
  unfold must_load_function
  split_ifs with h
  · simp only [Step.emit_bind, h, if_true, Step.printf_bind, Step.exit_bind]
    rfl
  · simp only [Step.emit_bind, h, if_false, Step.pure_bind, Step.pure_trace, Step.pure_result]

theorem run_lua_test_code_found (w : World) (handle : Ptr) (code : String) (code_size : Nat)
    (h1 : w.ckb_dlsym handle "lua_create_instance" ≠ Ptr.null)
    (h2 : w.ckb_dlsym handle "lua_run_code" ≠ Ptr.null)
    (h3 : w.ckb_dlsym handle "lua_close_instance" ≠ Ptr.null) :
    run_lua_test_code w handle code code_size =
      ⟨[Event.ckb_dlsym handle "lua_create_instance", Event.ckb_dlsym handle "lua_run_code",
        Event.ckb_dlsym handle "lua_close_instance"] ++
        trace_from_create w (w.ckb_dlsym handle "lua_create_instance")
          (w.ckb_dlsym handle "lua_run_code") (w.ckb_dlsym handle "lua_close_instance")
          code code_size, .ok ()⟩ := by
  unfold run_lua_test_code trace_from_create
  simp only [must_load_function_eq, h1, h2, h3, if_false, Step.mk_bind_ok, Step.emit_bind]
  have hm : 1024 * 512 = 524288 := rfl
  simp only [hm]
  split_ifs <;>
    simp [Step.printf_bind, Step.pure_bind, Step.pure_trace, Step.pure_result, Step.emit]

theorem run_lua_test_code_missing (w : World) (handle : Ptr) (code : String) (code_size : Nat)
    (h : w.ckb_dlsym handle "lua_create_instance" = Ptr.null ∨
      w.ckb_dlsym handle "lua_run_code" = Ptr.null ∨
      w.ckb_dlsym handle "lua_close_instance" = Ptr.null) :
    ∃ t, (∀ e ∈ t, e.is_entry = false) ∧
      run_lua_test_code w handle code code_size =
        ⟨t ++ [Event.ckb_exit ERROR_CANT_FIND_SYMBOL], .error ERROR_CANT_FIND_SYMBOL⟩ := by
  unfold run_lua_test_code
  simp only [must_load_function_eq]
  by_cases h1 : w.ckb_dlsym handle "lua_create_instance" = Ptr.null
  · refine ⟨[Event.ckb_dlsym handle "lua_create_instance",
      Event.printf "dl_opening error, can't find symbol %s\n"], ?_, ?_⟩
    · simp [Event.is_entry, Event.is_create, Event.is_evaluate, Event.is_close]
    · simp only [h1, if_true, Step.mk_bind_error]
      rfl
  by_cases h2 : w.ckb_dlsym handle "lua_run_code" = Ptr.null
  · refine ⟨[Event.ckb_dlsym handle "lua_create_instance", Event.ckb_dlsym handle "lua_run_code",
      Event.printf "dl_opening error, can't find symbol %s\n"], ?_, ?_⟩
    · simp [Event.is_entry, Event.is_create, Event.is_evaluate, Event.is_close]
    · simp only [h1, h2, if_true, if_false, Step.mk_bind_error, Step.mk_bind_ok]
      rfl
  have h3 : w.ckb_dlsym handle "lua_close_instance" = Ptr.null := by tauto
  refine ⟨[Event.ckb_dlsym handle "lua_create_instance", Event.ckb_dlsym handle "lua_run_code",
      Event.ckb_dlsym handle "lua_close_instance",
      Event.printf "dl_opening error, can't find symbol %s\n"], ?_, ?_⟩
  · simp [Event.is_entry, Event.is_create, Event.is_evaluate, Event.is_close]
  · simp only [h1, h2, h3, if_true, if_false, Step.mk_bind_error, Step.mk_bind_ok]
    rfl

end LuaEmbedded

open LuaEmbedded

theorem main_of_exit (w : World) (t : List Event) (e : Int)
    (h : must_get_dylib_handle w (Ptr.obj w.addr_handle) w.uninit_handle = ⟨t, .error e⟩) :
    main w = ⟨t, .error e⟩ := by
  unfold main
  rw [h]
  rfl

theorem CBin.main_too_long (w : World) (hret : w.load_script_ret = w.CKB_SUCCESS)
    (hlen : w.load_script_len > CBin.SCRIPT_SIZE) :
    CBin.main w = ⟨[Event.ckb_load_script CBin.SCRIPT_SIZE], .ok CBin.ERROR_SCRIPT_TOO_LONG⟩ := by
  simp only [CBin.main, Step.emit_bind, Step.pure_bind, hret, hlen, ne_eq, not_true_eq_false,
    if_false, if_true, Step.pure_trace, Step.pure_result]

theorem LuaEmbedded.get_dylib_handle_too_long (w : World) (handle cell : Ptr)
    (hret : w.load_script_ret = 0) (hlen : w.load_script_len > MAX_SCRIPT_SIZE) :
    get_dylib_handle w handle cell =
      ⟨[Event.ckb_load_script MAX_SCRIPT_SIZE], .ok (ERROR_SCRIPT_TOO_LONG, cell)⟩ := by
  simp only [get_dylib_handle, Step.emit_bind, Step.pure_bind, hret, hlen, ne_eq,
    not_true_eq_false, if_false, if_true, Step.pure_trace, Step.pure_result]

/-! ## The claims -/

/-- C1 (the code departs from it): a loader that reports success and leaves
`NULL` in `*handle` is not answered with `ERROR_CANT_LOAD_LIB`: called as
`main` calls it, `get_dylib_handle` returns 0 and `*handle` is `NULL`. -/
theorem get_dylib_handle_null_library :
    (get_dylib_handle World.null_library (Ptr.obj World.null_library.addr_handle)
        World.null_library.uninit_handle).result = .ok (0, Ptr.null) ∧
      (loader_answer World.null_library).err = 0 ∧
      (loader_answer World.null_library).handle = Ptr.null ∧
      ERROR_CANT_LOAD_LIB = 40 := by
  refine ⟨rfl, rfl, rfl, rfl⟩

/-- C2: when the script is accepted, has at least 35 argument bytes, and
the loader answers 0 with a handle that is not `NULL` and a consumed size
`n`, then `get_dylib_handle`, given the address of an object as `handle`,
returns 0 with the handle of the loader in `*handle` if `RISCV_PGSIZE`
divides `n`, and returns `ERROR_LIB_MALFORMED` = 41 if it does not. -/
theorem get_dylib_handle_page_check (w : World) (slot : Nat) (cell : Ptr)
    (hok : script_ok w) (hargs : 35 ≤ (args_bytes_seg w).size)
    (herr : (loader_answer w).err = 0) (_hnn : (loader_answer w).handle ≠ Ptr.null) :
    (w.RISCV_PGSIZE ∣ (loader_answer w).consumed_size →
        (get_dylib_handle w (Ptr.obj slot) cell).result = .ok (0, (loader_answer w).handle)) ∧
      (¬ w.RISCV_PGSIZE ∣ (loader_answer w).consumed_size →
        (get_dylib_handle w (Ptr.obj slot) cell).result =
          .ok (ERROR_LIB_MALFORMED, (loader_answer w).handle)) ∧
      ERROR_LIB_MALFORMED = 41 := by
  rw [get_dylib_handle_loaded w _ cell hok hargs]
  have hne : ¬ ((loader_answer w).err ≠ 0) := not_not.mpr herr
  have hobj : ¬ (Ptr.obj slot = Ptr.null) := by simp
  simp only [hne, hobj, if_false]
  refine ⟨fun hd => ?_, fun hd => ?_, rfl⟩
  · have hm : ¬ ((loader_answer w).consumed_size % w.RISCV_PGSIZE ≠ 0) :=
      not_not.mpr (Nat.mod_eq_zero_of_dvd hd)
    rw [if_neg hm]
  · have hm : (loader_answer w).consumed_size % w.RISCV_PGSIZE ≠ 0 :=
      fun h0 => hd (Nat.dvd_of_mod_eq_zero h0)
    rw [if_pos hm]

theorem get_dylib_handle_page_check_witness :
    (get_dylib_handle World.sample (Ptr.obj 4000000) Ptr.null).result = .ok (0, Ptr.obj 7000) ∧
      (get_dylib_handle World.odd_size (Ptr.obj 4000000) Ptr.null).result =
        .ok (41, Ptr.obj 7000) :=
  ⟨(get_dylib_handle_page_check World.sample 4000000 Ptr.null (by decide) (by decide) rfl
      (by decide)).1 (by decide),
   (get_dylib_handle_page_check World.odd_size 4000000 Ptr.null (by decide) (by decide) rfl
      (by decide)).2.1 (by decide)⟩

/-- C3: when the script is accepted and has fewer than 35 = 2 + 32 + 1
argument bytes, `get_dylib_handle` returns `ERROR_INVALID_ARGS_FORMAT` = 43,
and no event of its trace reads an argument byte or calls the loader. -/
theorem get_dylib_handle_short_args (w : World) (handle cell : Ptr) (hok : script_ok w)
    (hshort : (args_bytes_seg w).size <
      RESERVED_ARGS_SIZE + BLAKE2B_BLOCK_SIZE + HASH_TYPE_SIZE) :
    (get_dylib_handle w handle cell).result = .ok (ERROR_INVALID_ARGS_FORMAT, cell) ∧
      ERROR_INVALID_ARGS_FORMAT = 43 ∧
      RESERVED_ARGS_SIZE + BLAKE2B_BLOCK_SIZE + HASH_TYPE_SIZE = 35 ∧
      (∀ e ∈ (get_dylib_handle w handle cell).trace, e.reads_arg = false) ∧
      (∀ e ∈ (get_dylib_handle w handle cell).trace, e.is_dlopen2 = false) := by
  rw [get_dylib_handle_below_minimum w handle cell hok hshort]
  refine ⟨rfl, rfl, rfl, ?_, ?_⟩ <;> simp [Event.reads_arg, Event.is_dlopen2]

theorem get_dylib_handle_short_args_witness :
    (args_bytes_seg World.short_args).size = 30 ∧
      (get_dylib_handle World.short_args (Ptr.obj 4000000) Ptr.null).result =
        .ok (43, Ptr.null) ∧
      (∀ e ∈ (get_dylib_handle World.short_args (Ptr.obj 4000000) Ptr.null).trace,
        e.is_dlopen2 = false) :=
  have h := get_dylib_handle_short_args World.short_args (Ptr.obj 4000000) Ptr.null
    (by decide) (by decide)
  ⟨rfl, h.1, h.2.2.2.2⟩

/-- C4, as the code has it: when the script is accepted, has at least 35
argument bytes and the loader answers with an error `e` other than 0,
`get_dylib_handle` returns `e`, `must_get_dylib_handle` ends the run by
calling `ckb_exit(e)`, and the status the program ends with is `e` converted
to `int8_t`: it is `e` itself when -128 ≤ `e` ≤ 127, and it is other than 0
exactly when `e` is not a multiple of 256.  The trace of `main` holds no call
of `ckb_dlsym` and no call of an entry point. -/
theorem loader_error_exits (w : World) (hok : script_ok w)
    (hargs : 35 ≤ (args_bytes_seg w).size) (herr : (loader_answer w).err ≠ 0) :
    (∀ handle cell, (get_dylib_handle w handle cell).result =
        .ok ((loader_answer w).err, (loader_answer w).handle)) ∧
      (∀ handle cell, (must_get_dylib_handle w handle cell).result =
          .error (to_int8_t (loader_answer w).err) ∧
        (must_get_dylib_handle w handle cell).trace.getLast? =
          some (Event.ckb_exit (loader_answer w).err)) ∧
      (main w).result = .error (to_int8_t (loader_answer w).err) ∧
      Step.exit_code (main w) = to_int8_t (loader_answer w).err ∧
      (-128 ≤ (loader_answer w).err → (loader_answer w).err ≤ 127 →
        Step.exit_code (main w) = (loader_answer w).err) ∧
      (Step.exit_code (main w) ≠ 0 ↔ ¬ (256 : Int) ∣ (loader_answer w).err) ∧
      (∀ ev ∈ (main w).trace, ev.is_dlsym = false ∧ ev.is_entry = false) := by
  have hg : ∀ handle cell, get_dylib_handle w handle cell =
      ⟨trace_to_loader w ++ [Event.printf "dl_opening error: %d\n"],
        .ok ((loader_answer w).err, (loader_answer w).handle)⟩ := by
    intro handle cell
    rw [get_dylib_handle_loaded w handle cell hok hargs]
    simp only [herr, if_true, ne_eq, not_false_eq_true]
  have hm : ∀ handle cell, must_get_dylib_handle w handle cell =
      ⟨(trace_to_loader w ++ [Event.printf "dl_opening error: %d\n"]) ++
        [Event.ckb_exit (loader_answer w).err],
        .error (to_int8_t (loader_answer w).err)⟩ := by
    intro handle cell
    rw [must_get_dylib_handle_of w handle cell _ _ _ (hg handle cell)]
    simp only [herr, if_true, ne_eq, not_false_eq_true]
  have hmain := main_of_exit w _ _ (hm (Ptr.obj w.addr_handle) w.uninit_handle)
  have hcode : Step.exit_code (main w) = to_int8_t (loader_answer w).err := by
    rw [hmain]
    rfl
  refine ⟨fun handle cell => by rw [hg], fun handle cell => ?_, ?_, hcode, ?_, ?_, ?_⟩
  · rw [hm]
    exact ⟨rfl, by simp⟩
  · rw [hmain]
  · intro hlo hhi
    rw [hcode, to_int8_t_of_range _ hlo hhi]
  · rw [hcode, ne_eq, to_int8_t_eq_zero_iff]
  · rw [hmain]
    intro ev hev
    simp only [trace_to_loader, List.cons_append, List.nil_append, List.mem_cons,
      List.mem_singleton, List.not_mem_nil, or_false] at hev
    rcases hev with h | h | h | h | h | h | h | h <;> subst h <;> exact ⟨rfl, rfl⟩

theorem loader_error_exits_witness :
    (loader_answer World.bad_hash).err = 1 ∧ Step.exit_code (main World.bad_hash) = 1 ∧
      (∀ ev ∈ (main World.bad_hash).trace, ev.is_dlsym = false ∧ ev.is_entry = false) :=
  have h := loader_error_exits World.bad_hash (by decide) (by decide) (by decide)
  ⟨rfl, h.2.2.2.2.1 (by decide) (by decide), h.2.2.2.2.2.2⟩

/-- C4, as it is written, fails: with a loader that fails with the error
256, `must_get_dylib_handle` calls `ckb_exit(256)` and the program ends with
the status 0, the one of success. -/
theorem loader_error_256_exits_zero :
    (loader_answer World.loader_256).err = 256 ∧
      (get_dylib_handle World.loader_256 (Ptr.obj World.loader_256.addr_handle)
        World.loader_256.uninit_handle).result = .ok (256, Ptr.null) ∧
      (main World.loader_256).result = .error 0 ∧
      Step.exit_code (main World.loader_256) = 0 := by
  refine ⟨rfl, rfl, rfl, rfl⟩

/-- C5: when `ckb_dlsym` returns `NULL` for at least one of the names
`lua_create_instance`, `lua_run_code`, `lua_close_instance`, the run of
`run_lua_test_code` ends with `ckb_exit(ERROR_CANT_FIND_SYMBOL)`, code 42,
and its trace holds no call of an entry point. -/
theorem missing_symbol_exits (w : World) (handle : Ptr) (code : String) (code_size : Nat)
    (h : w.ckb_dlsym handle "lua_create_instance" = Ptr.null ∨
      w.ckb_dlsym handle "lua_run_code" = Ptr.null ∨
      w.ckb_dlsym handle "lua_close_instance" = Ptr.null) :
    (run_lua_test_code w handle code code_size).result = .error ERROR_CANT_FIND_SYMBOL ∧
      ERROR_CANT_FIND_SYMBOL = 42 ∧
      (run_lua_test_code w handle code code_size).trace.getLast? =
        some (Event.ckb_exit ERROR_CANT_FIND_SYMBOL) ∧
      (∀ e ∈ (run_lua_test_code w handle code code_size).trace, e.is_entry = false) := by
  obtain ⟨t, ht, hrun⟩ := run_lua_test_code_missing w handle code code_size h
  rw [hrun]
  refine ⟨rfl, rfl, by simp, ?_⟩
  intro e he
  rcases List.mem_append.mp he with h1 | h1
  · exact ht e h1
  · rw [List.mem_singleton.mp h1]
    rfl

theorem missing_symbol_exits_witness :
    World.no_run_code.ckb_dlsym (Ptr.obj 7000) "lua_run_code" = Ptr.null ∧
      (run_lua_test_code World.no_run_code (Ptr.obj 7000) code (strlen code)).result =
        .error 42 ∧
      (∀ e ∈ (run_lua_test_code World.no_run_code (Ptr.obj 7000) code (strlen code)).trace,
        e.is_entry = false) :=
  have h := missing_symbol_exits World.no_run_code (Ptr.obj 7000) code (strlen code)
    (Or.inr (Or.inl rfl))
  ⟨rfl, h.1, h.2.2.2⟩

/-- C6 (the code departs from it): the program ends with the code 0 although
the construct entry point returned `NULL`, and although the evaluate entry
point returned 1; in neither run is the teardown entry point called. -/
theorem main_exit_code_after_failure :
    World.create_fails.call_create (Ptr.obj 7100) 3000000 3524288
        World.create_fails.uninit_mem = Ptr.null ∧
      Step.exit_code (main World.create_fails) = 0 ∧
      (main World.create_fails).trace.any Event.is_close = false ∧
      World.evaluate_fails.call_evaluate (Ptr.obj 7200) (Ptr.obj 3000016) code (strlen code)
        "test" = 1 ∧
      Step.exit_code (main World.evaluate_fails) = 0 ∧
      (main World.evaluate_fails).trace.any Event.is_close = false := by
  refine ⟨rfl, rfl, rfl, rfl, rfl, rfl⟩

/-- C7: when `ckb_load_script` succeeds and reports more than 32768 bytes,
`get_dylib_handle` of lua/embedded and `main` of c/bin return
`ERROR_SCRIPT_TOO_LONG` = -21, and the call of `ckb_load_script` is the only
event of the trace: `MolReader_Script_verify` is not called. -/
theorem script_too_long (w : World) (hlen : w.load_script_len > 32768) :
    (w.load_script_ret = 0 → ∀ handle cell,
        get_dylib_handle w handle cell =
          ⟨[Event.ckb_load_script 32768], .ok (-21, cell)⟩ ∧
        ∀ e ∈ (get_dylib_handle w handle cell).trace, e.is_verify = false) ∧
      (w.load_script_ret = w.CKB_SUCCESS →
        CBin.main w = ⟨[Event.ckb_load_script 32768], .ok (-21)⟩ ∧
        ∀ e ∈ (CBin.main w).trace, e.is_verify = false) ∧
      MAX_SCRIPT_SIZE = 32768 ∧ CBin.SCRIPT_SIZE = 32768 ∧
      LuaEmbedded.ERROR_SCRIPT_TOO_LONG = -21 ∧ CBin.ERROR_SCRIPT_TOO_LONG = -21 := by
  refine ⟨fun hret handle cell => ?_, fun hret => ?_, rfl, rfl, rfl, rfl⟩
  · rw [get_dylib_handle_too_long w handle cell hret hlen]
    refine ⟨rfl, ?_⟩
    intro e he
    rw [List.mem_singleton.mp he]
    rfl
  · rw [CBin.main_too_long w hret hlen]
    refine ⟨rfl, ?_⟩
    intro e he
    rw [List.mem_singleton.mp he]
    rfl

theorem script_too_long_witness :
    World.long_script.load_script_len = 40000 ∧
      (get_dylib_handle World.long_script (Ptr.obj 4000000) Ptr.null).result =
        .ok (-21, Ptr.null) ∧
      (CBin.main World.long_script).result = .ok (-21) :=
  have h := script_too_long World.long_script (by decide)
  ⟨rfl, congrArg Step.result ((h.1 rfl (Ptr.obj 4000000) Ptr.null).1),
    congrArg Step.result (h.2.1 rfl).1⟩

/-- C8: for an accepted script with at least 35 argument bytes the loader is
called once, with the argument bytes 2..33 as code hash, the argument byte
34 as hash type and the capacity 1048576; two such scripts that agree on the
argument bytes 2..34 and meet the same loader and page size give the same
call of the loader and the same result of `get_dylib_handle`. -/
theorem loader_arguments_fixed_offsets (w1 w2 : World) (handle cell : Ptr)
    (hok1 : script_ok w1) (hok2 : script_ok w2)
    (hargs1 : 35 ≤ (args_bytes_seg w1).size) (hargs2 : 35 ≤ (args_bytes_seg w2).size)
    (hagree : ∀ i, 2 ≤ i → i ≤ 34 → arg_byte w1 i = arg_byte w2 i)
    (hloader : w1.ckb_dlopen2 = w2.ckb_dlopen2) (hpage : w1.RISCV_PGSIZE = w2.RISCV_PGSIZE) :
    loader_calls (get_dylib_handle w1 handle cell).trace =
        [(2, (List.range 32).map (fun i => arg_byte w1 (2 + i)), arg_byte w1 34, 1048576)] ∧
      loader_calls (get_dylib_handle w2 handle cell).trace =
        loader_calls (get_dylib_handle w1 handle cell).trace ∧
      (get_dylib_handle w2 handle cell).result = (get_dylib_handle w1 handle cell).result := by
  have hhash : (List.range 32).map (fun i => arg_byte w1 (2 + i)) =
      (List.range 32).map (fun i => arg_byte w2 (2 + i)) := by
    apply List.map_congr_left
    intro i hi
    have hi32 : i < 32 := List.mem_range.mp hi
    exact hagree (2 + i) (by omega) (by omega)
  have hty : arg_byte w1 34 = arg_byte w2 34 := hagree 34 (by omega) (by omega)
  have hans : loader_answer w1 = loader_answer w2 := by
    unfold loader_answer
    rw [hhash, hty, hloader]
  have hcalls : ∀ w : World, script_ok w → 35 ≤ (args_bytes_seg w).size →
      loader_calls (get_dylib_handle w handle cell).trace =
        [(2, (List.range 32).map (fun i => arg_byte w (2 + i)), arg_byte w 34, 1048576)] := by
    intro w hok hargs
    rw [get_dylib_handle_loaded w handle cell hok hargs]
    split_ifs <;> rfl
  refine ⟨hcalls w1 hok1 hargs1, ?_, ?_⟩
  · rw [hcalls w1 hok1 hargs1, hcalls w2 hok2 hargs2, hhash, hty]
  · rw [get_dylib_handle_loaded w1 handle cell hok1 hargs1,
      get_dylib_handle_loaded w2 handle cell hok2 hargs2, hans, hpage]
    split_ifs <;> rfl

theorem loader_arguments_fixed_offsets_witness :
    World.sample.script 57 ≠ World.other_padding.script 57 ∧
      World.sample.script 92 ≠ World.other_padding.script 92 ∧
      loader_calls (get_dylib_handle World.other_padding (Ptr.obj 4000000) Ptr.null).trace =
        loader_calls (get_dylib_handle World.sample (Ptr.obj 4000000) Ptr.null).trace ∧
      (get_dylib_handle World.other_padding (Ptr.obj 4000000) Ptr.null).result =
        (get_dylib_handle World.sample (Ptr.obj 4000000) Ptr.null).result :=
  have h := loader_arguments_fixed_offsets World.sample World.other_padding (Ptr.obj 4000000)
    Ptr.null (by decide) (by decide) (by decide) (by decide)
    (by
      intro i h2 h34
      have hi : 59 ≤ 57 + i ∧ 57 + i ≤ 91 := ⟨by omega, by omega⟩
      show World.sample.script (57 + i) =
        (if 59 ≤ 57 + i ∧ 57 + i ≤ 91 then World.sample.script (57 + i) else 255)
      rw [if_pos hi])
    rfl rfl
  ⟨by decide, by decide, h.2.1, h.2.2⟩

/-- C9, as the code has it: when the three symbols are found,
`run_lua_test_code` calls the construct entry point once, with the bounds
`mem` and `mem + 524288` of a local array it has not written: the bytes
between the bounds are the ones `mem` held at its declaration. -/
theorem create_receives_unwritten_arena (w : World) (handle : Ptr) (code : String)
    (code_size : Nat)
    (h1 : w.ckb_dlsym handle "lua_create_instance" ≠ Ptr.null)
    (h2 : w.ckb_dlsym handle "lua_run_code" ≠ Ptr.null)
    (h3 : w.ckb_dlsym handle "lua_close_instance" ≠ Ptr.null) :
    create_calls (run_lua_test_code w handle code code_size).trace =
      [(w.addr_mem, w.addr_mem + 512 * 1024, w.uninit_mem)] := by
  rw [run_lua_test_code_found w handle code code_size h1 h2 h3]
  unfold trace_from_create
  split_ifs <;> rfl

theorem create_receives_unwritten_arena_witness :
    create_calls (run_lua_test_code World.sample (Ptr.obj 7000) code (strlen code)).trace =
      [(3000000, 3000000 + 512 * 1024, World.sample.uninit_mem)] :=
  create_receives_unwritten_arena World.sample (Ptr.obj 7000) code (strlen code)
    (by decide) (by decide) (by decide)

/-- C9, as it is written, fails: on a stack that holds the byte 170, the
construct entry point is called with an arena whose first byte is 170. -/
theorem create_arena_not_zeroed :
    ∃ lo hi arena i,
      (lo, hi, arena) ∈
        create_calls (run_lua_test_code World.dirty_stack (Ptr.obj 7000) code
          (strlen code)).trace ∧
      hi = lo + 524288 ∧ i < 524288 ∧ arena i ≠ 0 :=
  ⟨3000000, 3524288, fun _ => 170, 0, List.mem_singleton.mpr rfl, rfl, by decide, by decide⟩

/-- C10: when the three symbols are found, the calls of entry points made by
`run_lua_test_code` form a prefix of construct, evaluate, teardown: the
construct entry point is called once; the evaluate entry point is called
once, with the context construct returned, `code`, `code_size` and the label
`test`, if that context is not `NULL`, and not at all otherwise; the
teardown entry point is called once, with the same context, if evaluate was
called and returned 0, and not at all otherwise. -/
theorem entry_calls_in_order (w : World) (handle : Ptr) (code : String) (code_size : Nat)
    (h1 : w.ckb_dlsym handle "lua_create_instance" ≠ Ptr.null)
    (h2 : w.ckb_dlsym handle "lua_run_code" ≠ Ptr.null)
    (h3 : w.ckb_dlsym handle "lua_close_instance" ≠ Ptr.null) :
    let t := (run_lua_test_code w handle code code_size).trace
    let l := w.call_create (w.ckb_dlsym handle "lua_create_instance") w.addr_mem
      (w.addr_mem + 512 * 1024) w.uninit_mem
    let ret := w.call_evaluate (w.ckb_dlsym handle "lua_run_code") l code code_size "test"
    let construct := Event.create (w.ckb_dlsym handle "lua_create_instance") w.addr_mem
      (w.addr_mem + 512 * 1024) w.uninit_mem
    let evaluate := Event.evaluate (w.ckb_dlsym handle "lua_run_code") l code code_size "test"
    let teardown := Event.close (w.ckb_dlsym handle "lua_close_instance") l
    entry_calls t <+: [construct, evaluate, teardown] ∧
      t.filter Event.is_create = [construct] ∧
      (l ≠ Ptr.null → t.filter Event.is_evaluate = [evaluate]) ∧
      (l = Ptr.null → t.filter Event.is_evaluate = []) ∧
      (l ≠ Ptr.null ∧ ret = 0 → t.filter Event.is_close = [teardown]) ∧
      (¬ (l ≠ Ptr.null ∧ ret = 0) → t.filter Event.is_close = []) := by
  intro t l ret construct evaluate teardown
  have ht : t = [Event.ckb_dlsym handle "lua_create_instance",
      Event.ckb_dlsym handle "lua_run_code", Event.ckb_dlsym handle "lua_close_instance"] ++
      (construct :: (if l = Ptr.null then [Event.printf "creating lua instance failed\n"]
        else evaluate :: (if ret ≠ 0 then [Event.printf "evaluating lua code failed: %d\n"]
          else [teardown]))) := by
    show (run_lua_test_code w handle code code_size).trace = _
    rw [run_lua_test_code_found w handle code code_size h1 h2 h3]
    rfl
  rw [ht]
  by_cases hl : l = Ptr.null
  · simp [hl, entry_calls, List.filter, Event.is_entry, Event.is_create, Event.is_evaluate,
      Event.is_close, construct, evaluate, teardown, List.prefix_iff_eq_take]
  · by_cases hr : ret = 0
    · simp [hl, hr, entry_calls, List.filter, Event.is_entry, Event.is_create,
        Event.is_evaluate, Event.is_close, construct, evaluate, teardown]
    · simp [hl, hr, entry_calls, List.filter, Event.is_entry, Event.is_create,
        Event.is_evaluate, Event.is_close, construct, evaluate, teardown,
        List.prefix_iff_eq_take]

theorem entry_calls_in_order_witness :
    entry_calls (run_lua_test_code World.sample (Ptr.obj 7000) code (strlen code)).trace <+:
        [Event.create (Ptr.obj 7100) 3000000 3524288 World.sample.uninit_mem,
         Event.evaluate (Ptr.obj 7200) (Ptr.obj 3000016) code (strlen code) "test",
         Event.close (Ptr.obj 7300) (Ptr.obj 3000016)] ∧
      (run_lua_test_code World.sample (Ptr.obj 7000) code (strlen code)).trace.filter
          Event.is_close = [Event.close (Ptr.obj 7300) (Ptr.obj 3000016)] :=
  have h := entry_calls_in_order World.sample (Ptr.obj 7000) code (strlen code)
    (by decide) (by decide) (by decide)
  ⟨h.1, h.2.2.2.2.1 ⟨by decide, rfl⟩⟩

end Capsule
